import Mathlib

/-!
Verification of the client-side asynchronous job-tracking engine of the
Doxasense_RnD frontend (the upload-queue logic of `App.js`: the functions
`handleUpload`, `checkUploadStatuses` and the retention filter, together
with the `uploadQueue` React state they operate on).

The JavaScript source is embedded shallowly:

* `JobEntry` is the object literal created by `handleUpload` and mutated
  by the reconciliation merge.  Fields that the source leaves `null` or
  absent (`jobId`, `documentId`, `message`, `completedAt`) are `Option`s.
* One reconciliation pass (`checkUploadStatuses`) is a pure function of
  the current queue and of an oracle `fetch : Nat → Option JobStatusResponse`
  giving, for each queue index, the settled result of that entry's status
  request (`none` = the axios call rejected).
* The three asynchronous continuations of `handleUpload` (the initial
  enqueue, the success continuation, the failure continuation) and the
  retention filter are separate state transformers; `run` folds an
  arbitrary interleaving of these operations from the empty queue,
  mirroring the fact that each of them is applied to the then-current
  React state via a functional `setUploadQueue` update.
-/

namespace Doxasense

/-- The status strings used by the source:
`'uploading' | 'queued' | 'processing' | 'completed' | 'failed'`. -/
inductive Status where
  | uploading
  | queued
  | processing
  | completed
  | failed
deriving DecidableEq, Repr, Inhabited

/-- One element of the `uploadQueue` array, as created by `handleUpload`:
`{ id, filename, status, progress, jobId, documentId }`, plus the
`message` field written by the merge / failure continuation and the
`completedAt` field read by the retention filter.  `none` models a JS
`null`/`undefined`/absent field. -/
structure JobEntry where
  id : String
  filename : String
  status : Status
  progress : Nat
  jobId : Option String
  documentId : Option String
  message : Option String
  completedAt : Option Nat
deriving DecidableEq, Repr, Inhabited

/-- The body of a `/job/{id}/status` response as consumed by the merge:
`jobStatus.status`, `jobStatus.progress` (may be absent) and
`jobStatus.result?.message` (may be absent). -/
structure JobStatusResponse where
  status : Status
  progress : Option Nat
  message : Option String
deriving DecidableEq, Repr, Inhabited

/-- Per-entry body of the `uploadQueue.map` callback in `checkUploadStatuses`:
terminal entries are returned unchanged; otherwise, if the fetch settled
successfully, the merge
`{ ...item, status, progress: jobStatus.progress || 0, message: jobStatus.result?.message || '' }`
is applied, and if it rejected the entry is returned unchanged
(the `catch` branch). -/
def checkItem (item : JobEntry) (fetch : Option JobStatusResponse) : JobEntry :=
  if item.status = Status.completed ∨ item.status = Status.failed then
    item
  else
    match fetch with
    | none => item
    | some jobStatus =>
        { item with
          status := jobStatus.status,
          progress := jobStatus.progress.getD 0,
          message := some (jobStatus.message.getD "") }

/-- `Promise.all(uploadQueue.map(async (item) => ...))`: the queue mapped
pointwise through `checkItem`, each entry paired with the settled result
of its own status request, index-keyed by the oracle. -/
def checkAll : List JobEntry → (Nat → Option JobStatusResponse) → List JobEntry
  | [], _ => []
  | item :: rest, fetch =>
      checkItem item (fetch 0) :: checkAll rest (fun i => fetch (i + 1))

/-- `updatedQueue.some((item, idx) => item.status === 'completed' && uploadQueue[idx]?.status !== 'completed')`:
the guard deciding whether `fetchDocuments()` (the document-list refresh
signal) fires; the two queues have equal length, so pairing by `zip`
matches the `idx` lookup. -/
def hasCompleted (updated old : List JobEntry) : Bool :=
  (updated.zip old).any fun p =>
    decide (p.1.status = Status.completed) && decide (p.2.status ≠ Status.completed)

/-- One reconciliation pass: the updated queue written back by
`setUploadQueue(updatedQueue)` together with the Boolean saying whether
the single `fetchDocuments()` refresh fires for this pass. -/
def checkUploadStatuses (queue : List JobEntry)
    (fetch : Nat → Option JobStatusResponse) : List JobEntry × Bool :=
  let updatedQueue := checkAll queue fetch
  (updatedQueue, hasCompleted updatedQueue queue)

/-- The retention grace period: `5000` ms in
`Date.now() - item.completedAt > 5000`. -/
def gracePeriod : Nat := 5000

/-- The retention filter predicate
`!(item.status === 'completed' && Date.now() - item.completedAt > 5000)`.
When `completedAt` is absent, `Date.now() - undefined` is `NaN` in JS and
`NaN > 5000` is `false`, so the age test yields `false`. -/
def sweepKeep (now : Nat) (item : JobEntry) : Bool :=
  !(decide (item.status = Status.completed) &&
    (match item.completedAt with
     | some t => decide (now - t > gracePeriod)
     | none => false))

/-- The retention sweep `setUploadQueue(prev => prev.filter(...))`. -/
def sweepQueue (now : Nat) (queue : List JobEntry) : List JobEntry :=
  queue.filter (sweepKeep now)

/-- The entry appended by `handleUpload` before the upload request is sent:
`{ id: Date.now().toString(), filename: file.name, status: 'uploading',
progress: 0, jobId: null, documentId: null }`. -/
def newEntry (now : Nat) (filename : String) : JobEntry :=
  { id := Nat.repr now
    filename := filename
    status := Status.uploading
    progress := 0
    jobId := none
    documentId := none
    message := none
    completedAt := none }

/-- The synchronous part of `handleUpload`:
`setUploadQueue(prev => [...prev, { ... }])`. -/
def handleUploadStart (now : Nat) (filename : String)
    (queue : List JobEntry) : List JobEntry :=
  queue ++ [newEntry now filename]

/-- Per-entry body of the success continuation of `handleUpload`:
`item.id === uploadId ? { ...item, status: 'queued', jobId, documentId } : item`. -/
def applySuccess (uploadId jobId documentId : String) (item : JobEntry) : JobEntry :=
  if item.id = uploadId then
    { item with
      status := Status.queued,
      jobId := some jobId,
      documentId := some documentId }
  else item

/-- The success continuation of `handleUpload`:
`setUploadQueue(prev => prev.map(item => ...))` with the response's
`job_id` and `document_id`. -/
def handleUploadSuccess (uploadId jobId documentId : String)
    (queue : List JobEntry) : List JobEntry :=
  queue.map (applySuccess uploadId jobId documentId)

/-- Per-entry body of the failure continuation of `handleUpload`:
`item.id === uploadId ? { ...item, status: 'failed', message: detail } : item`. -/
def applyFailure (uploadId detail : String) (item : JobEntry) : JobEntry :=
  if item.id = uploadId then
    { item with status := Status.failed, message := some detail }
  else item

/-- The failure continuation of `handleUpload`. -/
def handleUploadFailure (uploadId detail : String)
    (queue : List JobEntry) : List JobEntry :=
  queue.map (applyFailure uploadId detail)

/-- The state transformers that ever write `uploadQueue`, one constructor
per `setUploadQueue` call site in the source. -/
inductive Op where
  | upload (now : Nat) (filename : String)
  | uploadSuccess (uploadId jobId documentId : String)
  | uploadFailure (uploadId detail : String)
  | reconcile (fetch : Nat → Option JobStatusResponse)
  | sweep (now : Nat)

/-- Application of one operation to the current queue. -/
def applyOp (queue : List JobEntry) : Op → List JobEntry
  | Op.upload now filename => handleUploadStart now filename queue
  | Op.uploadSuccess uploadId jobId documentId =>
      handleUploadSuccess uploadId jobId documentId queue
  | Op.uploadFailure uploadId detail => handleUploadFailure uploadId detail queue
  | Op.reconcile fetch => (checkUploadStatuses queue fetch).1
  | Op.sweep now => sweepQueue now queue

/-- The queue reached from the initial `useState([])` after an arbitrary
interleaving of the source's queue-writing operations. -/
def run (ops : List Op) : List JobEntry :=
  ops.foldl applyOp []

/-! ### Basic lemmas about the per-entry merge and the pass -/

lemma checkItem_completedAt (item : JobEntry) (f : Option JobStatusResponse) :
    (checkItem item f).completedAt = item.completedAt := by
  unfold checkItem
  split
  · rfl
  · cases f <;> rfl

lemma checkItem_id (item : JobEntry) (f : Option JobStatusResponse) :
    (checkItem item f).id = item.id := by
  unfold checkItem
  split
  · rfl
  · cases f <;> rfl

lemma checkItem_filename (item : JobEntry) (f : Option JobStatusResponse) :
    (checkItem item f).filename = item.filename := by
  unfold checkItem
  split
  · rfl
  · cases f <;> rfl

lemma checkItem_jobId (item : JobEntry) (f : Option JobStatusResponse) :
    (checkItem item f).jobId = item.jobId := by
  unfold checkItem
  split
  · rfl
  · cases f <;> rfl

lemma checkItem_documentId (item : JobEntry) (f : Option JobStatusResponse) :
    (checkItem item f).documentId = item.documentId := by
  unfold checkItem
  split
  · rfl
  · cases f <;> rfl

lemma checkItem_terminal (item : JobEntry) (f : Option JobStatusResponse)
    (h : item.status = Status.completed ∨ item.status = Status.failed) :
    checkItem item f = item := by
  unfold checkItem
  simp [h]

lemma checkItem_none (item : JobEntry) :
    checkItem item none = item := by
  unfold checkItem
  split <;> rfl

lemma checkAll_length (q : List JobEntry) (f : Nat → Option JobStatusResponse) :
    (checkAll q f).length = q.length := by
  induction q generalizing f with
  | nil => rfl
  | cons a q ih => simp [checkAll, ih]

lemma checkAll_getD (q : List JobEntry) (f : Nat → Option JobStatusResponse)
    (j : Nat) (h : j < q.length) :
    (checkAll q f).getD j default = checkItem (q.getD j default) (f j) := by
  induction q generalizing f j with
  | nil => simp at h
  | cons a q ih =>
      cases j with
      | zero => rfl
      | succ j =>
          simp only [checkAll, List.getD_cons_succ]
          exact ih _ j (by simpa using h)

lemma checkAll_mem (q : List JobEntry) (f : Nat → Option JobStatusResponse)
    (e : JobEntry) (h : e ∈ checkAll q f) :
    ∃ x ∈ q, ∃ g, e = checkItem x g := by
  induction q generalizing f with
  | nil => simp [checkAll] at h
  | cons a q ih =>
      simp only [checkAll, List.mem_cons] at h
      rcases h with h | h
      · exact ⟨a, List.mem_cons_self a q, f 0, h⟩
      · obtain ⟨x, hx, g, hg⟩ := ih _ h
        exact ⟨x, List.mem_cons_of_mem a hx, g, hg⟩

lemma pass_length (q : List JobEntry) (f : Nat → Option JobStatusResponse) :
    ((checkUploadStatuses q f).1).length = q.length :=
  checkAll_length q f

lemma pass_getD (q : List JobEntry) (f : Nat → Option JobStatusResponse)
    (j : Nat) (h : j < q.length) :
    ((checkUploadStatuses q f).1).getD j default = checkItem (q.getD j default) (f j) :=
  checkAll_getD q f j h

lemma applySuccess_completedAt (uploadId jobId documentId : String) (item : JobEntry) :
    (applySuccess uploadId jobId documentId item).completedAt = item.completedAt := by
  unfold applySuccess
  split <;> rfl

lemma applyFailure_completedAt (uploadId detail : String) (item : JobEntry) :
    (applyFailure uploadId detail item).completedAt = item.completedAt := by
  unfold applyFailure
  split <;> rfl

/-! ### The `completedAt` invariant

No `setUploadQueue` call site in the source ever writes the `completedAt`
field: the initial entry omits it, the reconciliation merge spreads it
through unchanged, the upload continuations spread it through unchanged,
and the retention filter only reads it.  Hence it is absent (`none`) in
every reachable queue. -/

lemma applyOp_completedAt (q : List JobEntry) (op : Op)
    (h : ∀ e ∈ q, e.completedAt = none) :
    ∀ e ∈ applyOp q op, e.completedAt = none := by
  intro e he
  cases op with
  | upload now filename =>
      simp only [applyOp, handleUploadStart, List.mem_append, List.mem_singleton] at he
      rcases he with he | he
      · exact h e he
      · subst he; rfl
  | uploadSuccess uploadId jobId documentId =>
      simp only [applyOp, handleUploadSuccess, List.mem_map] at he
      obtain ⟨x, hx, rfl⟩ := he
      rw [applySuccess_completedAt]
      exact h x hx
  | uploadFailure uploadId detail =>
      simp only [applyOp, handleUploadFailure, List.mem_map] at he
      obtain ⟨x, hx, rfl⟩ := he
      rw [applyFailure_completedAt]
      exact h x hx
  | reconcile fetch =>
      obtain ⟨x, hx, g, rfl⟩ := checkAll_mem q fetch e he
      rw [checkItem_completedAt]
      exact h x hx
  | sweep now =>
      simp only [applyOp, sweepQueue, List.mem_filter] at he
      exact h e he.1

lemma foldl_completedAt (ops : List Op) (q : List JobEntry)
    (h : ∀ e ∈ q, e.completedAt = none) :
    ∀ e ∈ ops.foldl applyOp q, e.completedAt = none := by
  induction ops generalizing q with
  | nil => simpa using h
  | cons op ops ih => exact ih (applyOp q op) (applyOp_completedAt q op h)

lemma run_completedAt (ops : List Op) :
    ∀ e ∈ run ops, e.completedAt = none :=
  foldl_completedAt ops [] (by simp)

/-! ### Characterization of the refresh guard -/

lemma hasCompleted_iff (upd old : List JobEntry) :
    hasCompleted upd old = true ↔
    ∃ i, i < upd.length ∧ i < old.length ∧
      (upd.getD i default).status = Status.completed ∧
      (old.getD i default).status ≠ Status.completed := by
  induction upd generalizing old with
  | nil =>
      simp [hasCompleted]
  | cons u us ih =>
      cases old with
      | nil => simp [hasCompleted]
      | cons o os =>
          simp only [hasCompleted, List.zip_cons_cons, List.any_cons, Bool.or_eq_true,
            Bool.and_eq_true, decide_eq_true_eq]
          constructor
          · rintro (⟨h1, h2⟩ | h)
            · exact ⟨0, by simp, by simp, h1, h2⟩
            · obtain ⟨i, hi1, hi2, h3, h4⟩ := (ih os).mp h
              refine ⟨i + 1, ?_, ?_, ?_, ?_⟩
              · simpa using Nat.succ_lt_succ hi1
              · simpa using Nat.succ_lt_succ hi2
              · simpa [List.getD_cons_succ] using h3
              · simpa [List.getD_cons_succ] using h4
          · rintro ⟨i, hi1, hi2, h3, h4⟩
            cases i with
            | zero =>
                left
                exact ⟨by simpa using h3, by simpa using h4⟩
            | succ i =>
                right
                refine (ih os).mpr ⟨i, ?_, ?_, ?_, ?_⟩
                · simpa using Nat.lt_of_succ_lt_succ hi1
                · simpa using Nat.lt_of_succ_lt_succ hi2
                · simpa [List.getD_cons_succ] using h3
                · simpa [List.getD_cons_succ] using h4

/-! ### Injectivity of `Nat.repr`

`handleUpload` derives the tracking id as `Date.now().toString()`, i.e. the
decimal representation of the submission timestamp, so distinct timestamps
give distinct ids while equal timestamps collide. -/

lemma digitChar_inj_lt10 :
    ∀ a < 10, ∀ b < 10, Nat.digitChar a = Nat.digitChar b → a = b := by decide

lemma map_digitChar_inj (l1 l2 : List Nat)
    (h1 : ∀ d ∈ l1, d < 10) (h2 : ∀ d ∈ l2, d < 10)
    (h : l1.map Nat.digitChar = l2.map Nat.digitChar) : l1 = l2 := by
  induction l1 generalizing l2 with
  | nil =>
      cases l2 with
      | nil => rfl
      | cons b bs => simp at h
  | cons a as ih =>
      cases l2 with
      | nil => simp at h
      | cons b bs =>
          simp only [List.map_cons, List.cons.injEq] at h
          have ha := h1 a (List.mem_cons_self _ _)
          have hb := h2 b (List.mem_cons_self _ _)
          have hab : a = b := digitChar_inj_lt10 a ha b hb h.1
          subst hab
          rw [ih bs (fun d hd => h1 d (List.mem_cons_of_mem _ hd))
            (fun d hd => h2 d (List.mem_cons_of_mem _ hd)) h.2]

lemma toDigitsCore_eq_digits (fuel : Nat) :
    ∀ (n : Nat) (acc : List Char), n < fuel → 0 < n →
    Nat.toDigitsCore 10 fuel n acc =
      ((Nat.digits 10 n).map Nat.digitChar).reverse ++ acc := by
  induction fuel with
  | zero => intro n acc h; omega
  | succ fuel ih =>
      intro n acc hfuel hn
      rw [Nat.digits_def' (by norm_num : (1 : Nat) < 10) hn]
      by_cases h0 : n / 10 = 0
      · simp [Nat.toDigitsCore, h0]
      · have hdivlt : n / 10 < n := Nat.div_lt_self hn (by norm_num)
        have hdivfuel : n / 10 < fuel := by omega
        have hdivpos : 0 < n / 10 := Nat.pos_of_ne_zero h0
        simp only [Nat.toDigitsCore, h0, if_false]
        rw [ih (n / 10) (Nat.digitChar (n % 10) :: acc) hdivfuel hdivpos]
        simp

lemma repr_eq_digits (n : Nat) (hn : 0 < n) :
    Nat.repr n = (((Nat.digits 10 n).map Nat.digitChar).reverse).asString := by
  show (Nat.toDigits 10 n).asString = _
  rw [Nat.toDigits, toDigitsCore_eq_digits (n + 1) n [] (Nat.lt_succ_self n) hn,
    List.append_nil]

lemma asString_inj (l1 l2 : List Char) (h : l1.asString = l2.asString) : l1 = l2 :=
  congrArg String.data h

lemma repr_pos_ne_repr_zero (n : Nat) (hn : 0 < n) : Nat.repr n ≠ Nat.repr 0 := by
  intro h
  rw [repr_eq_digits n hn] at h
  have h0 : Nat.repr 0 = (['0'] : List Char).asString := rfl
  rw [h0] at h
  have hl := asString_inj _ _ h
  have hmap : (Nat.digits 10 n).map Nat.digitChar = ['0'] := by
    have := congrArg List.reverse hl
    simpa using this
  have hdig : Nat.digits 10 n = [0] := by
    refine map_digitChar_inj _ [0]
      (fun d hd => Nat.digits_lt_base (by norm_num) hd) (by simp) ?_
    rw [hmap]; rfl
  have hof := Nat.ofDigits_digits 10 n
  rw [hdig] at hof
  simp [Nat.ofDigits] at hof
  omega

lemma repr_injective : Function.Injective Nat.repr := by
  intro m n h
  rcases Nat.eq_zero_or_pos m with hm | hm <;> rcases Nat.eq_zero_or_pos n with hn | hn
  · omega
  · exact absurd h.symm (by subst hm; exact repr_pos_ne_repr_zero n hn)
  · exact absurd h (by subst hn; exact repr_pos_ne_repr_zero m hm)
  · rw [repr_eq_digits m hm, repr_eq_digits n hn] at h
    have hl := asString_inj _ _ h
    have hrev := List.reverse_injective hl
    have hdig := map_digitChar_inj _ _
      (fun d hd => Nat.digits_lt_base (by norm_num) hd)
      (fun d hd => Nat.digits_lt_base (by norm_num) hd) hrev
    have h1 := Nat.ofDigits_digits 10 m
    have h2 := Nat.ofDigits_digits 10 n
    rw [hdig] at h1
    rw [h1] at h2
    exact_mod_cast h2

/-! ### Concrete data used by witnesses and counterexamples -/

/-- Forward distance through the state machine
`uploading → queued → processing → completed`, with `failed` terminal. -/
def statusRank : Status → Nat
  | Status.uploading => 0
  | Status.queued => 1
  | Status.processing => 2
  | Status.completed => 3
  | Status.failed => 4

/-- A status response reporting completion, carrying no message. -/
def respCompleted : JobStatusResponse :=
  { status := Status.completed, progress := some 100, message := none }

/-- A status response reporting `queued`, carrying no message. -/
def respQueued : JobStatusResponse :=
  { status := Status.queued, progress := some 10, message := none }

/-- A status response reporting `processing` with no message in `result`. -/
def respNoMsg : JobStatusResponse :=
  { status := Status.processing, progress := some 60, message := none }

/-- An entry mid-processing. -/
def procEntry : JobEntry :=
  { id := "1", filename := "f.pdf", status := Status.processing, progress := 40,
    jobId := some "J1", documentId := some "D1", message := none, completedAt := none }

/-- A completed (terminal) entry. -/
def doneEntry : JobEntry :=
  { id := "2", filename := "g.pdf", status := Status.completed, progress := 100,
    jobId := some "J2", documentId := some "D2", message := none, completedAt := none }

/-- A queued entry awaiting its first progress report. -/
def queuedEntry : JobEntry :=
  { id := "4", filename := "k.pdf", status := Status.queued, progress := 0,
    jobId := some "J4", documentId := some "D4", message := none, completedAt := none }

/-- A processing entry that already carries a message. -/
def msgEntry : JobEntry :=
  { id := "3", filename := "h.pdf", status := Status.processing, progress := 50,
    jobId := some "J3", documentId := none, message := some "hello", completedAt := none }

/-- An oracle whose first fetch rejects and whose others report completion. -/
def demoFetch : Nat → Option JobStatusResponse :=
  fun i => if i = 0 then none else some respCompleted

/-- A full history: submit at t=100, intake succeeds with `J1`/`D1`, one
reconciliation pass observes `completed`. -/
def demoOps : List Op :=
  [Op.upload 100 "a.pdf",
   Op.uploadSuccess "100" "J1" "D1",
   Op.reconcile (fun _ => some respCompleted)]

/-- The entry `run demoOps` contains: completed, yet with no `completedAt`. -/
def demoEntry : JobEntry :=
  { id := "100", filename := "a.pdf", status := Status.completed, progress := 100,
    jobId := some "J1", documentId := some "D1", message := some "",
    completedAt := none }

/-- Two submissions falling in the same millisecond (`Date.now() = 100`). -/
def twoUploadsSameMs : List JobEntry :=
  handleUploadStart 100 "b.pdf" (handleUploadStart 100 "a.pdf" [])

/-! ### Claims -/

/-- C1: the retention filter never removes anything from any reachable
queue — for every history of operations and every sweep time, the sweep is
the identity.  This contradicts the claim that a `completed` entry is
removed once the 5000 ms grace period has elapsed since its `completedAt`:
no code path ever assigns `completedAt`, so the age test
`Date.now() - item.completedAt > 5000` compares against `undefined`
(`NaN`) and is always false.  (The half of the claim saying `failed`
entries are never auto-removed does hold, as an instance of this
theorem.) -/
theorem sweeper_removes_nothing_from_reachable (ops : List Op) (now : Nat) :
    sweepQueue now (run ops) = run ops := by
  refine List.filter_eq_self.mpr ?_
  intro e he
  have h := run_completedAt ops e he
  unfold sweepKeep
  rw [h]
  simp

/-- C2: in every reachable queue, every entry — in particular every entry
whose status is `completed` — has `completedAt = none`: the field is never
assigned, not even by the first reconciliation pass that observes
`completed` for a previously non-completed entry, contradicting the claim
that it is then set to the current time. -/
theorem completed_entries_have_no_completedAt (ops : List Op) (e : JobEntry)
    (he : e ∈ run ops) (_hc : e.status = Status.completed) :
    e.completedAt = none :=
  run_completedAt ops e he

/-- Witness for C2: the history `demoOps` drives an entry to `completed`,
and its `completedAt` is still `none`. -/
theorem completed_entries_have_no_completedAt_witness :
    demoEntry.completedAt = none :=
  completed_entries_have_no_completedAt demoOps demoEntry (by decide) (by decide)

/-- C4 counterexample: two files submitted in the same millisecond
(`Date.now() = 100`) yield two distinct queue entries with the *same*
trackingId, refuting the claim that every entry's trackingId differs from
that of every other entry. -/
theorem trackingId_collision_same_millisecond :
    twoUploadsSameMs.length = 2 ∧
    (twoUploadsSameMs.getD 0 default).id = (twoUploadsSameMs.getD 1 default).id ∧
    twoUploadsSameMs.getD 0 default ≠ twoUploadsSameMs.getD 1 default := by
  decide

/-- C4 (amended): each submission appends exactly one new entry, whose
trackingId is the decimal representation of the submission timestamp, and
entries created at distinct timestamps have distinct trackingIds (there is
no random suffix, so submissions sharing a millisecond collide). -/
theorem submission_appends_one_entry_with_timestamp_id
    (now : Nat) (filename : String) (q : List JobEntry)
    (now' : Nat) (filename' : String) (hne : now ≠ now') :
    handleUploadStart now filename q = q ++ [newEntry now filename] ∧
    (newEntry now filename).id = Nat.repr now ∧
    (newEntry now filename).id ≠ (newEntry now' filename').id := by
  refine ⟨rfl, rfl, ?_⟩
  intro h
  exact hne (repr_injective h)

/-- Witness for the amended C4 at timestamps 100 and 101. -/
theorem submission_appends_one_entry_with_timestamp_id_witness :
    handleUploadStart 100 "a.pdf" [] = [] ++ [newEntry 100 "a.pdf"] ∧
    (newEntry 100 "a.pdf").id = Nat.repr 100 ∧
    (newEntry 100 "a.pdf").id ≠ (newEntry 101 "b.pdf").id :=
  submission_appends_one_entry_with_timestamp_id 100 "a.pdf" [] 101 "b.pdf" (by decide)

/-- C5 counterexample: a reconciliation step on a `processing` entry whose
fetch reports `queued` overwrites the status with `queued` — a transition
from a later state to an earlier one, refuting the claim that status never
regresses. -/
theorem status_regression_processing_to_queued :
    procEntry.status = Status.processing ∧
    (checkItem procEntry (some respQueued)).status = Status.queued ∧
    statusRank (checkItem procEntry (some respQueued)).status <
      statusRank procEntry.status := by
  decide

/-- C5 (amended): `completed` and `failed` are terminal — reconciliation
never changes such an entry — and a failed fetch leaves the entry
unchanged; for a successful fetch the entry's status is overwritten with
the fetched status, so the status does not regress provided the fetched
status is not earlier than the entry's current one (the code itself has no
monotonicity guard). -/
theorem status_monotone_under_nonregressing_fetches (item : JobEntry)
    (f : Option JobStatusResponse) :
    (item.status = Status.completed ∨ item.status = Status.failed →
      checkItem item f = item) ∧
    (f = none → checkItem item f = item) ∧
    (∀ r, f = some r → statusRank item.status ≤ statusRank r.status →
      statusRank item.status ≤ statusRank (checkItem item f).status) := by
  refine ⟨checkItem_terminal item f, ?_, ?_⟩
  · rintro rfl
    exact checkItem_none item
  · rintro r rfl hle
    by_cases hterm : item.status = Status.completed ∨ item.status = Status.failed
    · rw [checkItem_terminal item _ hterm]
    · unfold checkItem
      simpa [hterm] using hle

/-- Witness for the amended C5: a completed entry survives a regressing
fetch unchanged, and a processing entry whose fetch reports `completed`
moves forward. -/
theorem status_monotone_under_nonregressing_fetches_witness :
    checkItem doneEntry (some respQueued) = doneEntry ∧
    statusRank procEntry.status ≤
      statusRank (checkItem procEntry (some respCompleted)).status :=
  ⟨(status_monotone_under_nonregressing_fetches doneEntry (some respQueued)).1
      (Or.inl rfl),
   (status_monotone_under_nonregressing_fetches procEntry (some respCompleted)).2.2
      respCompleted rfl (by decide)⟩

/-- C6: the document-list refresh (`fetchDocuments()`) fires for a pass if
and only if some entry is `completed` after the pass while it was not
`completed` before it; structurally the guard is a single Boolean on the
whole pass, so the refresh is emitted at most once per pass however many
entries complete. -/
theorem refresh_signal_iff_freshly_completed (q : List JobEntry)
    (f : Nat → Option JobStatusResponse) :
    (checkUploadStatuses q f).2 = true ↔
    ∃ i, i < q.length ∧
      (((checkUploadStatuses q f).1).getD i default).status = Status.completed ∧
      (q.getD i default).status ≠ Status.completed := by
  show hasCompleted (checkAll q f) q = true ↔
    ∃ i, i < q.length ∧
      ((checkAll q f).getD i default).status = Status.completed ∧
      (q.getD i default).status ≠ Status.completed
  rw [hasCompleted_iff]
  constructor
  · rintro ⟨i, _, hi2, h3, h4⟩
    exact ⟨i, hi2, h3, h4⟩
  · rintro ⟨i, hi, h3, h4⟩
    exact ⟨i, by rw [checkAll_length]; exact hi, hi, h3, h4⟩

/-- C7: if the status fetch for entry `i` rejects, the pass leaves that
entry exactly as it was (status, progress and message included), and every
entry of the pass — so in particular every sibling — is reconciled purely
from its own prior state and its own fetch result, unaffected by the
failure at `i`.  Since the failed entry keeps its (non-terminal) status,
the next pass fetches it again. -/
theorem fetch_failure_isolated (q : List JobEntry)
    (f : Nat → Option JobStatusResponse) (i : Nat)
    (hi : i < q.length) (hfail : f i = none) :
    ((checkUploadStatuses q f).1).getD i default = q.getD i default ∧
    ∀ j, j < q.length →
      ((checkUploadStatuses q f).1).getD j default =
        checkItem (q.getD j default) (f j) := by
  constructor
  · rw [pass_getD q f i hi, hfail, checkItem_none]
  · intro j hj
    exact pass_getD q f j hj

/-- Witness for C7: entry 0's fetch rejects and entry 0 is unchanged,
while every entry is reconciled from its own fetch result. -/
theorem fetch_failure_isolated_witness :
    ((checkUploadStatuses [procEntry, queuedEntry] demoFetch).1).getD 0 default =
      [procEntry, queuedEntry].getD 0 default ∧
    ∀ j, j < [procEntry, queuedEntry].length →
      ((checkUploadStatuses [procEntry, queuedEntry] demoFetch).1).getD j default =
        checkItem ([procEntry, queuedEntry].getD j default) (demoFetch j) :=
  fetch_failure_isolated [procEntry, queuedEntry] demoFetch 0 (by decide) (by decide)

/-- C8 counterexample: a non-terminal entry carrying the message
`"hello"` is reconciled against a successful response that carries no
message, and its message becomes `""` — the prior message is *not* left
unchanged, refuting the claim. -/
theorem message_overwritten_when_absent :
    msgEntry.status ≠ Status.completed ∧ msgEntry.status ≠ Status.failed ∧
    respNoMsg.message = none ∧
    (checkItem msgEntry (some respNoMsg)).message ≠ msgEntry.message := by
  decide

/-- C8 (amended): for a non-terminal entry with a successful fetch, the
merge overwrites `status` with the fetched status, `progress` with the
fetched progress (defaulting to 0 when absent), and *always* overwrites
`message`: with the fetched message when present, and with the empty
string when the response carries none (`jobStatus.result?.message || ''`) —
the prior message is discarded either way. -/
theorem merge_overwrites_status_progress_message (item : JobEntry)
    (r : JobStatusResponse)
    (h1 : item.status ≠ Status.completed) (h2 : item.status ≠ Status.failed) :
    (checkItem item (some r)).status = r.status ∧
    (checkItem item (some r)).progress = r.progress.getD 0 ∧
    (checkItem item (some r)).message = some (r.message.getD "") := by
  unfold checkItem
  simp [h1, h2]

/-- Witness for the amended C8 at `msgEntry` and `respNoMsg`. -/
theorem merge_overwrites_status_progress_message_witness :
    (checkItem msgEntry (some respNoMsg)).status = respNoMsg.status ∧
    (checkItem msgEntry (some respNoMsg)).progress = respNoMsg.progress.getD 0 ∧
    (checkItem msgEntry (some respNoMsg)).message = some (respNoMsg.message.getD "") :=
  merge_overwrites_status_progress_message msgEntry respNoMsg (by decide) (by decide)

/-- C9 counterexample: after a successful intake response, the success
continuation of `handleUpload` sets `documentId` (to the response's
`document_id`) while moving the entry to `queued` — the entry's
`documentId` is non-null long before it reaches `completed`, refuting the
claim that it is set only on `completed`. -/
theorem documentId_set_on_queued :
    ((handleUploadSuccess "100" "J1" "D1" [newEntry 100 "a.pdf"]).getD 0 default).status =
      Status.queued ∧
    ((handleUploadSuccess "100" "J1" "D1" [newEntry 100 "a.pdf"]).getD 0 default).documentId =
      some "D1" := by
  decide

/-- C9 (amended): `documentId` is `none` at creation and is assigned by
the submission success continuation, together with the transition to
`queued`; reconciliation and the submission failure continuation never
modify it. -/
theorem documentId_lifecycle (now : Nat) (filename : String) (item : JobEntry)
    (f : Option JobStatusResponse) (uploadId jobId documentId detail : String) :
    (newEntry now filename).documentId = none ∧
    (checkItem item f).documentId = item.documentId ∧
    (applyFailure uploadId detail item).documentId = item.documentId ∧
    (item.id = uploadId →
      (applySuccess uploadId jobId documentId item).documentId = some documentId ∧
      (applySuccess uploadId jobId documentId item).status = Status.queued) := by
  refine ⟨rfl, checkItem_documentId item f, ?_, ?_⟩
  · unfold applyFailure
    split <;> rfl
  · intro h
    unfold applySuccess
    simp [h]

/-- Witness for the amended C9: the entry submitted at t=100 has no
`documentId`, and the matching success continuation sets it to `D1`. -/
theorem documentId_lifecycle_witness :
    (newEntry 100 "a.pdf").documentId = none ∧
    (applySuccess "100" "J1" "D1" (newEntry 100 "a.pdf")).documentId = some "D1" :=
  ⟨(documentId_lifecycle 100 "a.pdf" (newEntry 100 "a.pdf") none "100" "J1" "D1" "e").1,
   ((documentId_lifecycle 100 "a.pdf" (newEntry 100 "a.pdf") none "100" "J1" "D1" "e").2.2.2
      (by decide)).1⟩

/-- C10: a reconciliation pass preserves the `id`, `filename`, `jobId` and
`documentId` of every entry, and leaves every entry whose prior status is
`completed` or `failed` entirely unchanged in all fields. -/
theorem reconcile_frame_preservation (q : List JobEntry)
    (f : Nat → Option JobStatusResponse) (i : Nat) (hi : i < q.length) :
    (((checkUploadStatuses q f).1).getD i default).id = (q.getD i default).id ∧
    (((checkUploadStatuses q f).1).getD i default).filename =
      (q.getD i default).filename ∧
    (((checkUploadStatuses q f).1).getD i default).jobId = (q.getD i default).jobId ∧
    (((checkUploadStatuses q f).1).getD i default).documentId =
      (q.getD i default).documentId ∧
    ((q.getD i default).status = Status.completed ∨
        (q.getD i default).status = Status.failed →
      ((checkUploadStatuses q f).1).getD i default = q.getD i default) := by
  rw [pass_getD q f i hi]
  exact ⟨checkItem_id _ _, checkItem_filename _ _, checkItem_jobId _ _,
    checkItem_documentId _ _, fun h => checkItem_terminal _ _ h⟩

/-- Witness for C10: applied to a queue holding one completed entry, whose
fetch (in `demoFetch`) even reports `failed`-free data — the entry is
untouched. -/
theorem reconcile_frame_preservation_witness :
    (((checkUploadStatuses [doneEntry] demoFetch).1).getD 0 default).id =
      ([doneEntry].getD 0 default).id ∧
    ((checkUploadStatuses [doneEntry] demoFetch).1).getD 0 default =
      [doneEntry].getD 0 default :=
  ⟨(reconcile_frame_preservation [doneEntry] demoFetch 0 (by decide)).1,
   (reconcile_frame_preservation [doneEntry] demoFetch 0 (by decide)).2.2.2.2
      (Or.inl rfl)⟩

end Doxasense
